import Mathlib

/-!
Verification of the rules-versioning and agreement-audit subsystem of the
Pediforte student registration backend (src/app.py, src/models.py).

The durable store (SQLAlchemy tables `student_rules`, `student_agreement`,
`student_information`) is embedded as lists in insertion order, with explicit
auto-increment counters for primary keys.  Each HTTP resource method becomes a
pure function from the store (plus request data and the current time) to a
response together with the post-state of the store; an `abort(...)` in the
Python code becomes an `Except.error` response paired with the unchanged store,
since `abort` raises before any session write is committed.
-/

/-- Row of the `student_rules` table (models.py, class StudentRules). -/
structure StudentRules where
  id : Nat
  rules_content : String
  version : String
  is_active : Bool
  created_by : Nat
  created_at : Nat
  updated_at : Nat
deriving Repr, DecidableEq

/-- Row of the `student_agreement` table (models.py, class StudentAgreement). -/
structure StudentAgreement where
  id : Nat
  student_id : Nat
  rules_id : Nat
  agreed_at : Nat
  ip_address : Option String
  user_agent : String
deriving Repr, DecidableEq

/-- Row of the `student_information` table (models.py, class
StudentInformation), restricted to the fields the rules/agreement subsystem
reads or writes.  `dob`, `gender`, passport data and the course/payment
foreign keys never influence this subsystem and are omitted. -/
structure StudentInformation where
  id : Nat
  surname : String
  given_name : String
  email_address : String
  terms_agreed : Bool
  terms_agreed_at : Option Nat
deriving Repr, DecidableEq

/-- The durable store: the three tables in insertion order plus the
auto-increment counters that produce primary keys. -/
structure Store where
  rules : List StudentRules
  agreements : List StudentAgreement
  students : List StudentInformation
  nextRulesId : Nat
  nextAgreementId : Nat
  nextStudentId : Nat
deriving Repr, DecidableEq

/-- Errors raised via `abort` in app.py: `badRequest` is `abort(400, msg)`,
`notFound` is the 404 from `query.get_or_404`. -/
inductive ApiError where
  | badRequest (message : String)
  | notFound
deriving Repr, DecidableEq

/-- Request origin data read from the WSGI environment
(`request.environ.get('REMOTE_ADDR')` and the `User-Agent` header). -/
structure RequestOrigin where
  remote_addr : Option String
  user_agent : String
deriving Repr, DecidableEq

/-- JSON body accepted by the admin rules endpoints: `none` for a field means
the key is absent from the posted JSON object (a posted empty object or a
missing body behaves the same as both keys absent). -/
structure RulesInput where
  rules_content : Option String
  version : Option String
deriving Repr, DecidableEq

/-- The `[:500]` truncation applied to the User-Agent header before it is
stored on an agreement row: the first 500 characters of the string. -/
def truncate (n : Nat) (s : String) : String :=
  String.mk (s.data.take n)

/-- Embedding of `StudentRules.get_active_rules` (models.py):
`StudentRules.query.filter_by(is_active=True).first()` — the first row of the
table, in insertion order, whose `is_active` flag is set. -/
def get_active_rules (s : Store) : Option StudentRules :=
  (s.rules.filter (fun r => r.is_active)).head?

/-- Body of the 200 response of `GET /api/student-rules`
(StudentRulesResource.get): either the literal default dictionary
`{'rules_content': '', 'version': '1.0'}` or `active_rules.to_dict()`. -/
inductive RulesGetResponse where
  | defaults (rules_content : String) (version : String)
  | activeDoc (doc : StudentRules)
deriving Repr, DecidableEq

/-- Embedding of `StudentRulesResource.get` (app.py lines 141-147): returns the active
rules document, or the empty default when none is active.  Read-only. -/
def studentRulesGet (s : Store) : RulesGetResponse × Nat :=
  match get_active_rules s with
  | none => (.defaults "" "1.0", 200)
  | some active_rules => (.activeDoc active_rules, 200)

/-- Embedding of `AdminStudentRulesResource.post` (app.py lines 156-178), the Publish
operation: validates that the `rules_content` key is present, deactivates
every existing row (`StudentRules.query.update({'is_active': False})`),
computes the default version label `v{N}.0` from the row count, and inserts
the new row with `is_active=True`, all committed together. -/
def adminRulesPost (s : Store) (data : RulesInput) (admin_id : Nat) (now : Nat) :
    Except ApiError (StudentRules × Nat) × Store :=
  match data.rules_content with
  | none => (.error (.badRequest "Rules content is required"), s)
  | some content =>
    let deactivated := s.rules.map (fun r => { r with is_active := false })
    let version_number := deactivated.length + 1
    let new_rules : StudentRules :=
      { id := s.nextRulesId
        rules_content := content
        version := (data.version).getD ("v" ++ toString version_number ++ ".0")
        is_active := true
        created_by := admin_id
        created_at := now
        updated_at := now }
    (.ok (new_rules, 201),
     { s with rules := deactivated ++ [new_rules], nextRulesId := s.nextRulesId + 1 })

/-- The in-place mutation performed by `AdminStudentRulesResource.put` on the
row identified as active: `rules_content` is rewritten,
`version = data.get('version', active_rules.version)`, and the `updated_at`
column is bumped; all other columns are untouched. -/
def updateActiveRow (content : String) (version : Option String) (now : Nat)
    (activeId : Nat) (r : StudentRules) : StudentRules :=
  if r.id == activeId then
    { r with rules_content := content
             version := version.getD r.version
             updated_at := now }
  else r

/-- Embedding of `AdminStudentRulesResource.put` (app.py lines 180-197), the Update
operation: validates `rules_content`, falls back to `self.post()` when no
active row exists, and otherwise rewrites the active row's content, optional
version label, and `updated_at` in place. -/
def adminRulesPut (s : Store) (data : RulesInput) (admin_id : Nat) (now : Nat) :
    Except ApiError (StudentRules × Nat) × Store :=
  match data.rules_content with
  | none => (.error (.badRequest "Rules content is required"), s)
  | some content =>
    match get_active_rules s with
    | none => adminRulesPost s data admin_id now
    | some active_rules =>
      (.ok (updateActiveRow content data.version now active_rules.id active_rules, 200),
       { s with rules := s.rules.map (updateActiveRow content data.version now active_rules.id) })

/-- Body of the success response of `POST /api/students/{id}/agreement`: the
201 branch returns a message plus `agreement.to_dict()`; the 200
already-agreed branch of the code returns a message only. -/
inductive AgreementResponse where
  | created (message : String) (agreement : StudentAgreement)
  | already (message : String)
deriving Repr, DecidableEq

/-- The agreement record, when the response body carries one. -/
def includedAgreement : AgreementResponse → Option StudentAgreement
  | .created _ agreement => some agreement
  | .already _ => none

/-- Embedding of `StudentAgreementResource.post` (app.py lines 199-239), the
RecordAgreement operation: rejects a non-truthy `agreed` flag, resolves the
student (404 when absent), resolves the active rules (400 when none), returns
200 with a message when an agreement for (student, active rules) already
exists, and otherwise inserts the agreement and sets the student's
`terms_agreed` / `terms_agreed_at` in the same commit. -/
def studentAgreementPost (s : Store) (student_id : Nat) (agreed : Bool)
    (origin : RequestOrigin) (now : Nat) :
    Except ApiError (AgreementResponse × Nat) × Store :=
  if !agreed then
    (.error (.badRequest "Student must agree to terms and conditions"), s)
  else
    match s.students.find? (fun st => st.id == student_id) with
    | none => (.error .notFound, s)
    | some _student =>
      match get_active_rules s with
      | none => (.error (.badRequest "No active rules found"), s)
      | some active_rules =>
        match s.agreements.find?
            (fun a => a.student_id == student_id && a.rules_id == active_rules.id) with
        | some _ => (.ok (.already "Student has already agreed to current rules", 200), s)
        | none =>
          let agreement : StudentAgreement :=
            { id := s.nextAgreementId
              student_id := student_id
              rules_id := active_rules.id
              agreed_at := now
              ip_address := origin.remote_addr
              user_agent := truncate 500 origin.user_agent }
          (.ok (.created "Terms and conditions accepted successfully" agreement, 201),
           { s with
               agreements := s.agreements ++ [agreement]
               students := s.students.map (fun st =>
                 if st.id == student_id then
                   { st with terms_agreed := true, terms_agreed_at := some now }
                 else st)
               nextAgreementId := s.nextAgreementId + 1 })

/-- Body of the 200 response of `GET /api/admin/rules-analytics`
(AdminRulesAnalytics.get).  `students_not_agreed` carries Python integer
subtraction, `agreement_percentage` the exact value of
`agreed / total * 100`. -/
structure RulesAnalyticsResult where
  total_students : Nat
  students_agreed : Nat
  students_not_agreed : Int
  agreement_percentage : Rat
  current_version_agreements : Nat
  active_rules_version : Option String
deriving Repr, DecidableEq

/-- Embedding of `AdminRulesAnalytics.get` (app.py lines 247-268): a read-only aggregation
over the three tables; no store is returned because the handler performs no
writes. -/
def adminRulesAnalyticsGet (s : Store) : RulesAnalyticsResult × Nat :=
  let total_students := s.students.length
  let agreed_students := (s.students.filter (fun st => st.terms_agreed)).length
  let active_rules := get_active_rules s
  let current_version_agreements :=
    match active_rules with
    | none => 0
    | some ar => (s.agreements.filter (fun a => a.rules_id == ar.id)).length
  ({ total_students := total_students
     students_agreed := agreed_students
     students_not_agreed := (total_students : Int) - (agreed_students : Int)
     agreement_percentage :=
       if total_students > 0 then
         (agreed_students : Rat) / (total_students : Rat) * 100
       else 0
     current_version_agreements := current_version_agreements
     active_rules_version := active_rules.map (fun ar => ar.version) }, 200)

/-- Embedding of `CourseInformation.COURSE_OPTIONS` (models.py). -/
def COURSE_OPTIONS : List String :=
  ["Fullstack Development", "Frontend Development", "Cybersecurity",
   "Data Science", "Mobile App Development", "UI/UX Design"]

/-- JSON body accepted by public registration, restricted to the fields that
the rules/agreement subsystem inspects: the presence of the required keys,
the nested `course_info.preferred_course` selection, and the `terms_agreed`
flag.  The remaining optional profile/course/payment fields never reach the
rules or agreement tables. -/
structure RegistrationInput where
  surname : Option String
  given_name : Option String
  email_address : Option String
  preferred_course : Option String
  terms_agreed : Bool
deriving Repr, DecidableEq

/-- Embedding of `StudentFormList.post` (app.py lines 329-400), public registration:
rejects missing required keys, an invalid course selection, and a non-truthy
`terms_agreed`; otherwise inserts the student with `terms_agreed=True` and
`terms_agreed_at=now`, and additionally inserts a StudentAgreement row only
when an active rules document exists at registration time. -/
def studentFormListPost (s : Store) (data : RegistrationInput)
    (origin : RequestOrigin) (now : Nat) :
    Except ApiError (StudentInformation × Nat) × Store :=
  match data.surname, data.given_name, data.email_address, data.preferred_course with
  | some surname, some given_name, some email, some preferred_course =>
    if preferred_course ∉ COURSE_OPTIONS then
      (.error (.badRequest "Invalid course selection"), s)
    else if !data.terms_agreed then
      (.error (.badRequest "You must agree to the terms and conditions to register"), s)
    else
      let new_student : StudentInformation :=
        { id := s.nextStudentId
          surname := surname
          given_name := given_name
          email_address := email
          terms_agreed := true
          terms_agreed_at := some now }
      let s₁ := { s with students := s.students ++ [new_student],
                         nextStudentId := s.nextStudentId + 1 }
      match get_active_rules s with
      | none => (.ok (new_student, 201), s₁)
      | some active_rules =>
        let agreement : StudentAgreement :=
          { id := s.nextAgreementId
            student_id := new_student.id
            rules_id := active_rules.id
            agreed_at := now
            ip_address := origin.remote_addr
            user_agent := truncate 500 origin.user_agent }
        (.ok (new_student, 201),
         { s₁ with agreements := s.agreements ++ [agreement],
                   nextAgreementId := s.nextAgreementId + 1 })
  | _, _, _, _ => (.error (.badRequest "Required fields missing"), s)

/-- Number of rows of `student_rules` whose `is_active` flag is set. -/
def countActive (s : Store) : Nat :=
  (s.rules.filter (fun r => r.is_active)).length

/-! ## Concrete fixtures used by witnesses and counterexamples -/

/-- A fresh database: empty tables, auto-increment counters at 1. -/
def storeEmpty : Store :=
  { rules := [], agreements := [], students := [],
    nextRulesId := 1, nextAgreementId := 1, nextStudentId := 1 }

/-- The rules row produced by publishing "Rule v1" on the fresh database. -/
def docV1 : StudentRules :=
  { id := 1, rules_content := "Rule v1", version := "v1.0", is_active := true,
    created_by := 1, created_at := 0, updated_at := 0 }

/-- Database holding the single active row `docV1`. -/
def storeOne : Store :=
  { rules := [docV1], agreements := [], students := [],
    nextRulesId := 2, nextAgreementId := 1, nextStudentId := 1 }

/-- The rules row produced by publishing "Rule v2" on `storeOne`. -/
def docV2 : StudentRules :=
  { id := 2, rules_content := "Rule v2", version := "v2.0", is_active := true,
    created_by := 1, created_at := 5, updated_at := 5 }

/-- Database state after publishing "Rule v2" on top of `storeOne`. -/
def storeTwo : Store :=
  { rules := [{ docV1 with is_active := false }, docV2], agreements := [], students := [],
    nextRulesId := 3, nextAgreementId := 1, nextStudentId := 1 }

/-- The concrete scenario student (spec §8: "student 42 exists"). -/
def studentW : StudentInformation :=
  { id := 42, surname := "Doe", given_name := "Ada", email_address := "ada@example.com",
    terms_agreed := false, terms_agreed_at := none }

/-- The concrete scenario rules row (spec §8: "active rules version id=5"). -/
def rulesDoc5 : StudentRules :=
  { id := 5, rules_content := "Rules", version := "1.0", is_active := true,
    created_by := 1, created_at := 0, updated_at := 0 }

/-- A concrete request origin. -/
def originW : RequestOrigin :=
  { remote_addr := some "1.2.3.4", user_agent := "test" }

/-- Database holding student 42 and no rules rows at all. -/
def storeStudentOnly : Store :=
  { rules := [], agreements := [], students := [studentW],
    nextRulesId := 1, nextAgreementId := 1, nextStudentId := 43 }

/-- Database holding student 42 and the active rules row `rulesDoc5`. -/
def storeScen : Store :=
  { rules := [rulesDoc5], agreements := [], students := [studentW],
    nextRulesId := 6, nextAgreementId := 1, nextStudentId := 43 }

/-- The agreement row inserted by the first RecordAgreement call on
`storeScen` (at time 10, from `originW`). -/
def agW : StudentAgreement :=
  { id := 1, student_id := 42, rules_id := 5, agreed_at := 10,
    ip_address := some "1.2.3.4", user_agent := "test" }

/-- Database state after that first RecordAgreement call: the agreement row
exists and student 42's denormalized flag and timestamp are set. -/
def storeScen1 : Store :=
  { rules := [rulesDoc5], agreements := [agW],
    students := [{ studentW with terms_agreed := true, terms_agreed_at := some 10 }],
    nextRulesId := 6, nextAgreementId := 2, nextStudentId := 43 }

/-- A valid public registration payload (used to exercise
`studentFormListPost` on concrete stores). -/
def regInput : RegistrationInput :=
  { surname := some "Doe", given_name := some "Ada",
    email_address := some "ada@example.com",
    preferred_course := some "Cybersecurity", terms_agreed := true }

/-- The student row created by registering `regInput` on the fresh database
at time 3. -/
def studentNew : StudentInformation :=
  { id := 1, surname := "Doe", given_name := "Ada", email_address := "ada@example.com",
    terms_agreed := true, terms_agreed_at := some 3 }

/-- Database state after registering `regInput` on the fresh database: the
student row exists with `terms_agreed = true`, yet the agreement table is
still empty because no rules row was active at registration time. -/
def storeRegistered : Store :=
  { rules := [], agreements := [], students := [studentNew],
    nextRulesId := 1, nextAgreementId := 1, nextStudentId := 2 }

/-! ## Helper lemmas -/

/-- Deactivating every row leaves nothing for the `is_active` filter. -/
theorem filter_active_deactivated (l : List StudentRules) :
    (l.map (fun r => { r with is_active := false })).filter (fun r => r.is_active) = [] := by
  induction l with
  | nil => rfl
  | cons a t ih => simp [List.filter_cons, ih]

/-! ## C1: Publish maintains the single-active invariant -/

/-- C1.  Every committed Publish (`POST /api/admin/rules`) first flips every
existing row's `is_active` to false and then appends the one new row with
`is_active = true`; hence the committed post-state has at most one active
RulesDocument.  Since every state committed by a Publish call is the
`Except.ok` post-state of `adminRulesPost` on whatever store preceded it,
this single-step fact gives the invariant after each call of any sequence of
Publish operations. -/
theorem publish_at_most_one_active (s : Store) (data : RulesInput)
    (admin_id now : Nat) (doc : StudentRules) (status : Nat) (s' : Store)
    (h : adminRulesPost s data admin_id now = (.ok (doc, status), s')) :
    s'.rules = s.rules.map (fun r => { r with is_active := false }) ++ [doc] ∧
    doc.is_active = true ∧ countActive s' ≤ 1 := by
  cases hc : data.rules_content with
  | none => simp [adminRulesPost, hc] at h
  | some content =>
    simp only [adminRulesPost, hc, Prod.mk.injEq, Except.ok.injEq] at h
    obtain ⟨⟨hdoc, -⟩, hs'⟩ := h
    subst hdoc
    subst hs'
    refine ⟨rfl, rfl, ?_⟩
    simp [countActive, List.filter_append, filter_active_deactivated]

/-- Witness for C1 at a concrete input: publishing "Rule v1" on the fresh
database leaves exactly one (hence at most one) active row. -/
theorem publish_at_most_one_active_witness :
    countActive storeOne ≤ 1 :=
  (publish_at_most_one_active storeEmpty ⟨some "Rule v1", none⟩ 1 0 docV1 201
    storeOne (by rfl)).2.2

/-! ## C4: a non-truthy agreed flag is rejected before any lookup -/

/-- C4.  For every store and every student id, RecordAgreement
(`POST /api/students/{id}/agreement`) with a falsy `agreed` flag fails with
the 400 ValidationError "Student must agree to terms and conditions" and
leaves the store untouched — the rejection happens whether or not the
student exists and whether or not any active rules document is present,
because the flag check precedes both lookups. -/
theorem recordAgreement_requires_agreed (s : Store) (student_id now : Nat)
    (origin : RequestOrigin) :
    studentAgreementPost s student_id false origin now =
      (.error (.badRequest "Student must agree to terms and conditions"), s) := rfl

/-! ## C6: empty content is accepted, only a missing key is rejected -/

/-- C6 counterexample.  Publish with `rules_content` present but equal to the
empty string does not fail: on the fresh database it succeeds with 201 and
inserts an active RulesDocument whose content is `""`. -/
theorem publish_empty_content_counterexample :
    adminRulesPost storeEmpty ⟨some "", none⟩ 1 0 =
      (.ok ({ id := 1, rules_content := "", version := "v1.0", is_active := true,
              created_by := 1, created_at := 0, updated_at := 0 }, 201),
       { rules := [{ id := 1, rules_content := "", version := "v1.0", is_active := true,
                     created_by := 1, created_at := 0, updated_at := 0 }],
         agreements := [], students := [],
         nextRulesId := 2, nextAgreementId := 1, nextStudentId := 1 }) := by rfl

/-- C6 amended.  Publish and Update fail with the 400 ValidationError
"Rules content is required" exactly when the `rules_content` key is absent
from the request body, performing no writes; a present-but-empty content
string is accepted (see the counterexample). -/
theorem rules_content_key_required (s : Store) (v : Option String)
    (admin_id now : Nat) :
    adminRulesPost s ⟨none, v⟩ admin_id now =
      (.error (.badRequest "Rules content is required"), s) ∧
    adminRulesPut s ⟨none, v⟩ admin_id now =
      (.error (.badRequest "Rules content is required"), s) :=
  ⟨rfl, rfl⟩

/-! ## C7: the default version label is v{N}.0 with N = prior count + 1 -/

/-- C7.  Every committed Publish stamps the new row with the supplied version
label when one is given, and otherwise with the computed default
`v{N}.0` where `N` is the number of RulesDocuments existing before the
insert plus one. -/
theorem publish_version_label (s : Store) (data : RulesInput) (admin_id now : Nat)
    (doc : StudentRules) (status : Nat) (s' : Store)
    (h : adminRulesPost s data admin_id now = (.ok (doc, status), s')) :
    doc.version = (data.version).getD ("v" ++ toString (s.rules.length + 1) ++ ".0") := by
  cases hc : data.rules_content with
  | none => simp [adminRulesPost, hc] at h
  | some content =>
    simp only [adminRulesPost, hc, Prod.mk.injEq, Except.ok.injEq] at h
    obtain ⟨⟨hdoc, -⟩, -⟩ := h
    subst hdoc
    simp

/-- Witness for C7 at a concrete input: publishing on a database holding one
document, with the version label omitted, yields the label `v2.0`. -/
theorem publish_version_label_witness :
    docV2.version =
      (none : Option String).getD ("v" ++ toString (storeOne.rules.length + 1) ++ ".0") :=
  publish_version_label storeOne ⟨some "Rule v2", none⟩ 1 5 docV2 201 storeTwo (by rfl)

/-! ## C3: RecordAgreement with no active rules fails atomically -/

/-- C3.  For every store with no active RulesDocument and every student that
exists in it, RecordAgreement with a truthy flag fails with the
"No active rules found" error (the spec's ConflictError, surfaced by the code
as `abort(400, "No active rules found")`), and the store is returned
unchanged: no Agreement row is written and the student's `terms_agreed` /
`terms_agreed_at` fields keep their prior values. -/
theorem recordAgreement_no_active_rules (s : Store) (student_id now : Nat)
    (origin : RequestOrigin) (st : StudentInformation)
    (hstudent : s.students.find? (fun x => x.id == student_id) = some st)
    (hactive : get_active_rules s = none) :
    studentAgreementPost s student_id true origin now =
      (.error (.badRequest "No active rules found"), s) := by
  simp [studentAgreementPost, hstudent, hactive]

/-- Witness for C3 at a concrete input: student 42 exists, no rules row at
all, and the call errors leaving the store intact. -/
theorem recordAgreement_no_active_rules_witness :
    studentAgreementPost storeStudentOnly 42 true originW 7 =
      (.error (.badRequest "No active rules found"), storeStudentOnly) :=
  recordAgreement_no_active_rules storeStudentOnly 42 7 originW studentW
    (by rfl) (by rfl)

/-! ## C5: GetActive returns the default on an empty store, else the one active row -/

/-- C5.  `GET /api/student-rules` never errors (it is a total function into
200 responses): when no active RulesDocument exists it returns the literal
default `{rules_content: "", version: "1.0"}`, and when exactly one row is
active it returns exactly that document — never more than one, since the
lookup takes the first row of the `is_active` filter. -/
theorem getActive_default_or_unique (s : Store) (d : StudentRules) :
    (get_active_rules s = none → studentRulesGet s = (.defaults "" "1.0", 200)) ∧
    (s.rules.filter (fun r => r.is_active) = [d] →
      studentRulesGet s = (.activeDoc d, 200)) := by
  constructor
  · intro h
    simp [studentRulesGet, h]
  · intro h
    simp [studentRulesGet, get_active_rules, h]

/-- Witness for C5: the fresh database yields the default body, and the
database holding the single active row `docV1` yields exactly `docV1`. -/
theorem getActive_default_or_unique_witness :
    studentRulesGet storeEmpty = (.defaults "" "1.0", 200) ∧
    studentRulesGet storeOne = (.activeDoc docV1, 200) :=
  ⟨(getActive_default_or_unique storeEmpty docV1).1 (by rfl),
   (getActive_default_or_unique storeOne docV1).2 (by rfl)⟩

/-! ## C8: the analytics aggregation -/

/-- C8.  `GET /api/admin/rules-analytics` is a pure read (the handler takes
the store and returns only a response, so there are no side effects and no
error path) computing: the total student count; the count of students with
`terms_agreed = true`; the not-agreed count as total minus agreed; the
agreement percentage as agreed/total*100 with the value 0 — not an error —
when the population is empty; the count of Agreement rows referencing the
active rules row, 0 when no row is active; and the active version label,
`none` when no row is active. -/
theorem rulesAnalytics_spec (s : Store) :
    (adminRulesAnalyticsGet s).2 = 200 ∧
    (adminRulesAnalyticsGet s).1.total_students = s.students.length ∧
    (adminRulesAnalyticsGet s).1.students_agreed =
      (s.students.filter (fun st => st.terms_agreed)).length ∧
    (adminRulesAnalyticsGet s).1.students_not_agreed =
      ((adminRulesAnalyticsGet s).1.total_students : Int) -
        ((adminRulesAnalyticsGet s).1.students_agreed : Int) ∧
    (s.students.length = 0 → (adminRulesAnalyticsGet s).1.agreement_percentage = 0) ∧
    (s.students.length ≠ 0 →
      (adminRulesAnalyticsGet s).1.agreement_percentage =
        ((adminRulesAnalyticsGet s).1.students_agreed : Rat) /
          ((adminRulesAnalyticsGet s).1.total_students : Rat) * 100) ∧
    (get_active_rules s = none →
      (adminRulesAnalyticsGet s).1.current_version_agreements = 0 ∧
      (adminRulesAnalyticsGet s).1.active_rules_version = none) ∧
    (match get_active_rules s with
     | none => True
     | some ar =>
        (adminRulesAnalyticsGet s).1.current_version_agreements =
          (s.agreements.filter (fun a => a.rules_id == ar.id)).length ∧
        (adminRulesAnalyticsGet s).1.active_rules_version = some ar.version) := by
  refine ⟨rfl, rfl, rfl, rfl, ?_, ?_, ?_, ?_⟩
  · intro h0
    simp [adminRulesAnalyticsGet, h0]
  · intro hne
    have hpos : 0 < s.students.length := Nat.pos_of_ne_zero hne
    simp [adminRulesAnalyticsGet, hpos]
  · intro hnone
    simp [adminRulesAnalyticsGet, hnone]
  · cases hact : get_active_rules s with
    | none => simp
    | some ar =>
      refine ⟨?_, ?_⟩ <;> simp [adminRulesAnalyticsGet, hact]

/-- Witness for C8 at concrete inputs: the empty database yields percentage 0
rather than an error, and the one-student-one-agreement database yields the
agreed/total*100 formula. -/
theorem rulesAnalytics_spec_witness :
    (adminRulesAnalyticsGet storeEmpty).1.agreement_percentage = 0 ∧
    (adminRulesAnalyticsGet storeScen1).1.agreement_percentage =
      ((adminRulesAnalyticsGet storeScen1).1.students_agreed : Rat) /
        ((adminRulesAnalyticsGet storeScen1).1.total_students : Rat) * 100 :=
  ⟨(rulesAnalytics_spec storeEmpty).2.2.2.2.1 (by rfl),
   (rulesAnalytics_spec storeScen1).2.2.2.2.2.1 (by decide)⟩

/-! ## C9: Update mutates the active row in place, or degrades to Publish -/

/-- Frame fact: `updateActiveRow` touches only `rules_content`, `version`, and
`updated_at`; the `is_active` flag, creator reference, and `created_at`
of every row are preserved. -/
theorem updateActiveRow_frame (c : String) (v : Option String) (n i : Nat)
    (r : StudentRules) :
    (updateActiveRow c v n i r).is_active = r.is_active ∧
    (updateActiveRow c v n i r).created_by = r.created_by ∧
    (updateActiveRow c v n i r).created_at = r.created_at := by
  unfold updateActiveRow
  split <;> exact ⟨rfl, rfl, rfl⟩

/-- C9.  When the store has an active RulesDocument, Update
(`PUT /api/admin/rules`) with a present content key commits the state whose
rules table is the old table with the active row rewritten in place — the new
row text is the posted content and `updated_at` is bumped to now — while the
number of rows, every row's `is_active` flag, creator reference, and
`created_at` are unchanged.  When no active RulesDocument exists, Update is
the same operation as Publish. -/
theorem update_in_place (s : Store) (data : RulesInput) (admin_id now : Nat)
    (content : String) (active : StudentRules) :
    (data.rules_content = some content → get_active_rules s = some active →
      adminRulesPut s data admin_id now =
        (.ok (updateActiveRow content data.version now active.id active, 200),
         { s with rules := s.rules.map (updateActiveRow content data.version now active.id) }) ∧
      (updateActiveRow content data.version now active.id active).rules_content = content ∧
      (updateActiveRow content data.version now active.id active).updated_at = now ∧
      (s.rules.map (updateActiveRow content data.version now active.id)).length =
        s.rules.length ∧
      (s.rules.map (updateActiveRow content data.version now active.id)).map
          (fun r => r.is_active) = s.rules.map (fun r => r.is_active) ∧
      (s.rules.map (updateActiveRow content data.version now active.id)).map
          (fun r => r.created_by) = s.rules.map (fun r => r.created_by) ∧
      (s.rules.map (updateActiveRow content data.version now active.id)).map
          (fun r => r.created_at) = s.rules.map (fun r => r.created_at)) ∧
    (get_active_rules s = none →
      adminRulesPut s data admin_id now = adminRulesPost s data admin_id now) := by
  constructor
  · intro hc hact
    refine ⟨by simp [adminRulesPut, hc, hact], ?_, ?_, by simp, ?_, ?_, ?_⟩
    · simp [updateActiveRow]
    · simp [updateActiveRow]
    · rw [List.map_map]
      exact List.map_congr_left (fun r _ => (updateActiveRow_frame _ _ _ _ r).1)
    · rw [List.map_map]
      exact List.map_congr_left (fun r _ => (updateActiveRow_frame _ _ _ _ r).2.1)
    · rw [List.map_map]
      exact List.map_congr_left (fun r _ => (updateActiveRow_frame _ _ _ _ r).2.2)
  · intro hact
    cases hc : data.rules_content with
    | none => simp [adminRulesPut, adminRulesPost, hc]
    | some c => simp [adminRulesPut, hc, hact]

/-- Witness for C9 at concrete inputs: updating `storeOne` rewrites the one
active row in place without touching any `is_active` flag, and updating the
fresh (activeless) database performs exactly what Publish performs. -/
theorem update_in_place_witness :
    adminRulesPut storeOne ⟨some "New text", none⟩ 1 9 =
      (.ok (updateActiveRow "New text" none 9 docV1.id docV1, 200),
       { storeOne with rules := storeOne.rules.map (updateActiveRow "New text" none 9 docV1.id) }) ∧
    (storeOne.rules.map (updateActiveRow "New text" none 9 docV1.id)).map
        (fun r => r.is_active) = storeOne.rules.map (fun r => r.is_active) ∧
    adminRulesPut storeEmpty ⟨some "New text", none⟩ 1 9 =
      adminRulesPost storeEmpty ⟨some "New text", none⟩ 1 9 := by
  have h := (update_in_place storeOne ⟨some "New text", none⟩ 1 9 "New text" docV1).1
    (by rfl) (by rfl)
  exact ⟨h.1, h.2.2.2.2.1,
    (update_in_place storeEmpty ⟨some "New text", none⟩ 1 9 "New text" docV1).2 (by rfl)⟩

/-! ## C10: registration sets termsAgreed without necessarily writing an Agreement -/

/-- C10.  Public registration (`POST /api/students`) with a falsy
`terms_agreed` is always rejected with no writes, and every registration it
does commit creates the student with `terms_agreed = true` and
`terms_agreed_at` set to the registration time; but when no RulesDocument is
active at registration time the agreement table is left untouched.  Hence a
committed state is reachable (see the witness, from the fresh database) in
which a student has `terms_agreed = true` and a timestamp yet zero Agreement
rows — `terms_agreed = true` does not imply an Agreement exists for the
student. -/
theorem registration_without_active_rules (s : Store) (data : RegistrationInput)
    (o : RequestOrigin) (now : Nat) (st : StudentInformation) (s' : Store)
    (hactive : get_active_rules s = none)
    (h : studentFormListPost s data o now = (.ok (st, 201), s')) :
    st.terms_agreed = true ∧ st.terms_agreed_at = some now ∧
    s'.agreements = s.agreements ∧
    s'.students = s.students ++ [st] ∧
    (studentFormListPost s { data with terms_agreed := false } o now).1.toOption = none ∧
    (studentFormListPost s { data with terms_agreed := false } o now).2 = s := by
  cases hsn : data.surname with
  | none => simp [studentFormListPost, hsn] at h
  | some sn =>
  cases hgn : data.given_name with
  | none => simp [studentFormListPost, hsn, hgn] at h
  | some gn =>
  cases hem : data.email_address with
  | none => simp [studentFormListPost, hsn, hgn, hem] at h
  | some em =>
  cases hpc : data.preferred_course with
  | none => simp [studentFormListPost, hsn, hgn, hem, hpc] at h
  | some pc =>
  by_cases hcc : pc ∈ COURSE_OPTIONS
  case neg => simp [studentFormListPost, hsn, hgn, hem, hpc, hcc] at h
  case pos =>
  cases hta : data.terms_agreed with
  | false => simp [studentFormListPost, hsn, hgn, hem, hpc, hcc, hta] at h
  | true =>
    simp [studentFormListPost, hsn, hgn, hem, hpc, hcc, hta, hactive,
      Prod.mk.injEq, Except.ok.injEq] at h
    obtain ⟨hst, hs'⟩ := h
    subst hst
    subst hs'
    refine ⟨rfl, rfl, rfl, rfl, ?_, ?_⟩ <;>
      simp [studentFormListPost, hsn, hgn, hem, hpc, hcc, Except.toOption]

/-- Witness for C10 at a concrete input: registering on the fresh database
(no active rules) yields a committed state whose only student has
`terms_agreed = true` and a timestamp while the agreement table is empty. -/
theorem registration_without_active_rules_witness :
    studentNew.terms_agreed = true ∧ studentNew.terms_agreed_at = some 3 ∧
    storeRegistered.agreements = storeEmpty.agreements := by
  have h := registration_without_active_rules storeEmpty regInput originW 3
    studentNew storeRegistered (by rfl) (by rfl)
  exact ⟨h.1, h.2.1, h.2.2.1⟩

/-! ## C2: RecordAgreement is idempotent, but the repeat response body carries
no Agreement record -/

/-- C2 counterexample.  In the concrete state reached after student 42's
first agreement to the active rules, repeating the call succeeds with 200 and
the body `{'message': 'Student has already agreed to current rules'}` only:
the response carries no Agreement record (`includedAgreement` is `none`),
even though the existing Agreement row `agW` is in the store. -/
theorem recordAgreement_repeat_counterexample :
    studentAgreementPost storeScen1 42 true originW 11 =
      (.ok (.already "Student has already agreed to current rules", 200), storeScen1) ∧
    includedAgreement
        (AgreementResponse.already "Student has already agreed to current rules") = none ∧
    storeScen1.agreements = [agW] :=
  ⟨rfl, rfl, rfl⟩

/-- A successful lookup chain — student found, active rules found, agreement
for the pair found — makes RecordAgreement take the already-agreed branch:
200 with the message only, store unchanged. -/
theorem studentAgreementPost_already (s : Store) (student_id : Nat)
    (origin : RequestOrigin) (now : Nat) (st : StudentInformation)
    (active : StudentRules) (ag : StudentAgreement)
    (hstu : s.students.find? (fun x => x.id == student_id) = some st)
    (hact : get_active_rules s = some active)
    (hag : s.agreements.find?
      (fun a => a.student_id == student_id && a.rules_id == active.id) = some ag) :
    studentAgreementPost s student_id true origin now =
      (.ok (.already "Student has already agreed to current rules", 200), s) := by
  simp [studentAgreementPost, hstu, hact, hag]

/-- Lemma: `find?` commutes with a `map` that preserves the predicate. -/
theorem find?_map_comm {A B : Type} (g : A → B) (p : A → Bool) (q : B → Bool)
    (hpq : ∀ a, q (g a) = p a) : ∀ (l : List A) (x : A),
    l.find? p = some x → (l.map g).find? q = some (g x) := by
  intro l
  induction l with
  | nil => intro x hx; simp at hx
  | cons a t ih =>
    intro x hx
    cases hpa : p a with
    | true =>
      rw [List.find?_cons_of_pos _ hpa] at hx
      injection hx with hx
      subst hx
      rw [List.map_cons, List.find?_cons_of_pos _ (by rw [hpq]; exact hpa)]
    | false =>
      rw [List.find?_cons_of_neg _ (by simp [hpa])] at hx
      rw [List.map_cons, List.find?_cons_of_neg _ (by simp [hpq, hpa])]
      exact ih x hx

/-- C2 amended.  RecordAgreement is idempotent per (student, active rules
version): after a first call that commits a new Agreement, repeating the call
for the same student performs zero writes (the store — hence the student's
`terms_agreed` and `terms_agreed_at` and every Agreement row — is returned
unchanged), leaves exactly one Agreement row for the (student, rules-version)
pair, and returns HTTP 200 with the 'already agreed' message only — not the
first call's Agreement record. -/
theorem recordAgreement_idempotent (s : Store) (student_id : Nat)
    (o1 o2 : RequestOrigin) (n1 n2 : Nat) (m : String) (ag : StudentAgreement)
    (status : Nat) (s1 : Store)
    (h1 : studentAgreementPost s student_id true o1 n1 =
      (.ok (.created m ag, status), s1)) :
    studentAgreementPost s1 student_id true o2 n2 =
      (.ok (.already "Student has already agreed to current rules", 200), s1) ∧
    (s1.agreements.filter
        (fun a => a.student_id == student_id && a.rules_id == ag.rules_id)).length = 1 := by
  cases hstu : s.students.find? (fun st => st.id == student_id) with
  | none => simp [studentAgreementPost, hstu] at h1
  | some student =>
  cases hact : get_active_rules s with
  | none => simp [studentAgreementPost, hstu, hact] at h1
  | some active =>
  cases hag : s.agreements.find?
      (fun a => a.student_id == student_id && a.rules_id == active.id) with
  | some old => simp [studentAgreementPost, hstu, hact, hag] at h1
  | none =>
    simp only [studentAgreementPost, Bool.not_true, Bool.false_eq_true,
      if_false, hstu, hact, hag, Prod.mk.injEq, Except.ok.injEq,
      AgreementResponse.created.injEq] at h1
    obtain ⟨⟨⟨-, hagx⟩, -⟩, hs1⟩ := h1
    subst hagx
    subst hs1
    have hfs1 : (s.students.map (fun st =>
        if st.id == student_id then
          { st with terms_agreed := true, terms_agreed_at := some n1 }
        else st)).find? (fun st => st.id == student_id) =
        some (if student.id == student_id then
          { student with terms_agreed := true, terms_agreed_at := some n1 }
        else student) :=
      find?_map_comm _ _ _ (fun a => by split <;> rfl) s.students student hstu
    have hag1 : ((s.agreements ++
        [({ id := s.nextAgreementId, student_id := student_id, rules_id := active.id,
            agreed_at := n1, ip_address := o1.remote_addr,
            user_agent := truncate 500 o1.user_agent } : StudentAgreement)]).find?
          (fun a => a.student_id == student_id && a.rules_id == active.id)) =
        some { id := s.nextAgreementId, student_id := student_id, rules_id := active.id,
               agreed_at := n1, ip_address := o1.remote_addr,
               user_agent := truncate 500 o1.user_agent } := by
      rw [List.find?_append, hag]
      simp
    refine ⟨studentAgreementPost_already _ student_id o2 n2 _ active _ hfs1 hact hag1, ?_⟩
    have hfilter : s.agreements.filter
        (fun a => a.student_id == student_id && a.rules_id == active.id) = [] :=
      List.filter_eq_nil_iff.mpr (fun a ha => List.find?_eq_none.mp hag a ha)
    simp [List.filter_append, hfilter]

/-- Witness for the amended C2 at the concrete §8 scenario: student 42's
first call commits `agW`; the repeat call returns the already-agreed message
with the store unchanged, and exactly one Agreement row exists for the
pair. -/
theorem recordAgreement_idempotent_witness :
    studentAgreementPost storeScen1 42 true originW 11 =
      (.ok (.already "Student has already agreed to current rules", 200), storeScen1) ∧
    (storeScen1.agreements.filter
        (fun a => a.student_id == 42 && a.rules_id == agW.rules_id)).length = 1 :=
  recordAgreement_idempotent storeScen 42 originW originW 10 11
    "Terms and conditions accepted successfully" agW 201 storeScen1
    (by rfl)
